import Mathlib

/-!
Verification of the remote-vibes container-session orchestrator.

This file is a shallow embedding of the Python source:
  * `app/services/docker_manager.py` — port allocation, container
    start/stop, compose-sibling discovery;
  * `app/crud/__init__.py` — session-row mutations;
  * `app/routers/sessions.py` — the start/stop/restart HTTP routes;
  * `app/services/copilot_agent.py` — the chat-stream proxy.

External effects (the Docker daemon, the socket bind probe, Pydantic JSON
parsing, the HTTP transport) are modelled as explicit parameters: a
`free : Nat → Bool` probe for the bind attempt, a `DockerWorld` record for
the container engine, `Except` values for fallible calls.
-/

set_option maxHeartbeats 1000000

/-! ## Port allocator (`_find_free_port`, docker_manager.py lines 21–29) -/

/-- Scan `start, start+1, …` for `fuel` steps, returning the first port the
exclusive-bind probe `free` accepts.  `fuel` counts the remaining ports of
the Python `range(start, end)`. -/
def findFrom (free : Nat → Bool) : Nat → Nat → Option Nat
  | _, 0 => none
  | start, fuel + 1 =>
    if free start then some start else findFrom free (start + 1) fuel

/-- `_find_free_port(start, end)`: iterate `for port in range(start, end)`,
bind-probe each port, return the first success; the Python version raises
`RuntimeError` when the loop is exhausted, modelled as `none`.  The source
default for `end` is the fixed constant 9999 (callers pass only `start`). -/
def find_free_port (free : Nat → Bool) (start : Nat) (stop : Nat := 9999) :
    Option Nat :=
  findFrom free start (stop - start)

/-- The three sequential allocations of `_start_container_sync`
(docker_manager.py lines 75–77): code-server from the configured base,
agent API from just above it, dev server from just above that. -/
def allocate_three_ports (free : Nat → Bool) (base : Nat) :
    Option (Nat × Nat × Nat) :=
  match find_free_port free base with
  | none => none
  | some code =>
    match find_free_port free (code + 1) with
    | none => none
    | some agent =>
      match find_free_port free (agent + 1) with
      | none => none
      | some dev => some (code, agent, dev)

theorem findFrom_eq_some (free : Nat → Bool) :
    ∀ fuel start p, findFrom free start fuel = some p →
      start ≤ p ∧ p < start + fuel ∧ free p = true ∧
      ∀ q, start ≤ q → q < p → free q = false := by
  intro fuel
  induction fuel with
  | zero => intro start p h; simp [findFrom] at h
  | succ n ih =>
    intro start p h
    simp only [findFrom] at h
    by_cases hf : free start = true
    · rw [if_pos hf] at h
      cases h
      exact ⟨le_refl _, by omega, hf, fun q hq1 hq2 => absurd hq1 (by omega)⟩
    · rw [if_neg hf] at h
      obtain ⟨h1, h2, h3, h4⟩ := ih (start + 1) p h
      refine ⟨by omega, by omega, h3, fun q hq1 hq2 => ?_⟩
      rcases Nat.eq_or_lt_of_le hq1 with heq | hlt
      · subst heq; exact Bool.eq_false_iff.mpr hf
      · exact h4 q hlt hq2

theorem findFrom_eq_none (free : Nat → Bool) :
    ∀ fuel start, findFrom free start fuel = none ↔
      ∀ p, start ≤ p → p < start + fuel → free p = false := by
  intro fuel
  induction fuel with
  | zero => intro start; simp [findFrom]; omega
  | succ n ih =>
    intro start
    simp only [findFrom]
    by_cases hf : free start = true
    · rw [if_pos hf]
      constructor
      · intro h; cases h
      · intro h
        have := h start (le_refl _) (by omega)
        rw [hf] at this; cases this
    · rw [if_neg hf]
      rw [ih (start + 1)]
      constructor
      · intro h p hp1 hp2
        rcases Nat.eq_or_lt_of_le hp1 with heq | hlt
        · subst heq; exact Bool.eq_false_iff.mpr hf
        · exact h p hlt (by omega)
      · intro h p hp1 hp2
        exact h p (by omega) (by omega)

theorem allocate_three_ports_eq_some (free : Nat → Bool) (base c a d : Nat)
    (h : allocate_three_ports free base = some (c, a, d)) :
    find_free_port free base = some c ∧
    find_free_port free (c + 1) = some a ∧
    find_free_port free (a + 1) = some d := by
  unfold allocate_three_ports at h
  split at h
  · cases h
  · rename_i code h1
    split at h
    · cases h
    · rename_i agent h2
      split at h
      · cases h
      · rename_i dev h3
        injection h with h
        simp only [Prod.mk.injEq] at h
        obtain ⟨rfl, rfl, rfl⟩ := h
        exact ⟨h1, h2, h3⟩

/-- C2.  The three ports allocated by `_start_container_sync`
(docker_manager.py lines 75–77) are pairwise distinct — each search starts
just above the previous result — and, assuming the exclusive-bind probe
fails on every port currently held by another running session's container,
none of them equals a held port. -/
theorem three_allocated_ports_distinct
    (free : Nat → Bool) (base c a d : Nat) (held : List Nat)
    (halloc : allocate_three_ports free base = some (c, a, d))
    (hheld : ∀ p ∈ held, free p = false) :
    (c ≠ a ∧ c ≠ d ∧ a ≠ d) ∧
    (c < a ∧ a < d) ∧
    (∀ p ∈ held, c ≠ p ∧ a ≠ p ∧ d ≠ p) := by
  obtain ⟨h1, h2, h3⟩ := allocate_three_ports_eq_some free base c a d halloc
  obtain ⟨hc1, _, hcf, _⟩ := findFrom_eq_some free _ _ _ h1
  obtain ⟨ha1, _, haf, _⟩ := findFrom_eq_some free _ _ _ h2
  obtain ⟨hd1, _, hdf, _⟩ := findFrom_eq_some free _ _ _ h3
  refine ⟨⟨by omega, by omega, by omega⟩, ⟨by omega, by omega⟩, ?_⟩
  intro p hp
  have hfp := hheld p hp
  refine ⟨?_, ?_, ?_⟩ <;> intro heq <;> subst heq
  · rw [hcf] at hfp; cases hfp
  · rw [haf] at hfp; cases hfp
  · rw [hdf] at hfp; cases hfp

theorem three_allocated_ports_distinct_witness :
    allocate_three_ports (fun p => decide (9000 ≤ p)) 9000 =
      some (9000, 9001, 9002) ∧
    (∀ p ∈ [8080], (fun p => decide (9000 ≤ p)) p = false) ∧
    ((9000 ≠ 9001 ∧ 9000 ≠ 9002 ∧ 9001 ≠ 9002) ∧
     (9000 < 9001 ∧ 9001 < 9002) ∧
     (∀ p ∈ [8080], 9000 ≠ p ∧ 9001 ≠ p ∧ 9002 ≠ p)) :=
  ⟨by decide, by decide,
   three_allocated_ports_distinct (fun p => decide (9000 ≤ p)) 9000
     9000 9001 9002 [8080] (by decide) (by decide)⟩

/-- C5 counterexample.  The claim says the allocator scans
`[rangeStart, rangeStart+999]` and fails iff no port in that range is
free.  With `rangeStart = 9000` the claimed range contains 9999; a probe
that accepts exactly port 9999 should therefore succeed, but
`_find_free_port` iterates `range(start, 9999)`, which excludes 9999, and
raises instead. -/
theorem find_free_port_range_counterexample :
    find_free_port (fun p => p == 9999) 9000 = none ∧
    (9000 ≤ 9999 ∧ 9999 ≤ 9000 + 999 ∧ (fun p => p == 9999) 9999 = true) := by
  constructor
  · show findFrom (fun p => p == 9999) 9000 (9999 - 9000) = none
    rw [findFrom_eq_none]
    intro p hp1 hp2
    simp only [beq_eq_false_iff_ne]
    omega
  · exact ⟨by decide, by decide, by decide⟩

/-- C5 amended.  `_find_free_port(rangeStart)` scans exactly the ports in
`[rangeStart, 9998]` — Python `range(rangeStart, 9999)`, the default `end`
being the fixed constant 9999 rather than `rangeStart + 999` — in
ascending order; it returns the first port the exclusive-bind probe
accepts and fails if and only if no port in `[rangeStart, 9998]` is
free. -/
theorem find_free_port_scan_spec (free : Nat → Bool) (start : Nat) :
    (∀ p, find_free_port free start = some p →
      start ≤ p ∧ p < 9999 ∧ free p = true ∧
      ∀ q, start ≤ q → q < p → free q = false) ∧
    (find_free_port free start = none ↔
      ∀ p, start ≤ p → p < 9999 → free p = false) := by
  constructor
  · intro p h
    obtain ⟨h1, h2, h3, h4⟩ := findFrom_eq_some free _ _ _ h
    exact ⟨h1, by omega, h3, h4⟩
  · show findFrom free start (9999 - start) = none ↔ _
    rw [findFrom_eq_none]
    constructor
    · intro h p hp1 hp2; exact h p hp1 (by omega)
    · intro h p hp1 hp2; exact h p hp1 (by omega)

theorem find_free_port_scan_spec_witness :
    find_free_port (fun _ => true) 9000 = some 9000 ∧
    (9000 ≤ 9000 ∧ 9000 < 9999) := by
  refine ⟨by decide, ?_⟩
  have h := (find_free_port_scan_spec (fun _ => true) 9000).1 9000 (by decide)
  exact ⟨h.1, h.2.1⟩

/-! ## Session rows and CRUD (`app/models/session.py`, `app/crud/__init__.py`)

The persisted `agent_sessions` row.  The DB-managed `created_at` /
`updated_at` columns (server defaults / `onupdate` triggers) are outside
the embedded operations and omitted; `stopped_at` is application-set and
kept.  Timestamps are abstract `Nat` instants. -/

structure AgentSession where
  user_id : Nat
  repo_full_name : String
  repo_name : String
  branch : String := "main"
  container_id : Option String := none
  container_name : Option String := none
  code_server_port : Option Nat := none
  agent_api_port : Option Nat := none
  dev_server_port : Option Nat := none
  status : String := "pending"
  tunnel_url : Option String := none
  tunnel_active : Bool := false
  last_pr_url : Option String := none
  last_pr_title : Option String := none
  stopped_at : Option Nat := none
deriving DecidableEq

/-- Modelled from the spec: `app/schemas/session.py` is not under `src/`
(only its callers are).  `AgentSessionUpdate` is reconstructed from §3's
Session data model, the sibling `copilot-phone-agent/app/schemas/session.py`
variant, the fields the sessions router passes (routers/sessions.py lines
62–68), and migration `0002_add_dev_server_port`: every field is optional
and defaults to `None`. -/
structure AgentSessionUpdate where
  status : Option String := none
  container_id : Option String := none
  container_name : Option String := none
  code_server_port : Option Nat := none
  agent_api_port : Option Nat := none
  dev_server_port : Option Nat := none
  tunnel_url : Option String := none
  tunnel_active : Option Bool := none
  last_pr_url : Option String := none
  last_pr_title : Option String := none
  stopped_at : Option Nat := none
deriving DecidableEq

/-- One field of `crud.update_session`: `model_dump(exclude_none=True)`
drops `None` fields, so a `None` update leaves the current value. -/
def updField (u : Option α) (cur : Option α) : Option α :=
  match u with
  | some v => some v
  | none => cur

/-- `crud.update_session` (crud/__init__.py lines 50–59): `setattr` each
field of `data.model_dump(exclude_none=True)` onto the row. -/
def update_session (s : AgentSession) (u : AgentSessionUpdate) : AgentSession :=
  { s with
    status := u.status.getD s.status
    container_id := updField u.container_id s.container_id
    container_name := updField u.container_name s.container_name
    code_server_port := updField u.code_server_port s.code_server_port
    agent_api_port := updField u.agent_api_port s.agent_api_port
    dev_server_port := updField u.dev_server_port s.dev_server_port
    tunnel_url := updField u.tunnel_url s.tunnel_url
    tunnel_active := u.tunnel_active.getD s.tunnel_active
    last_pr_url := updField u.last_pr_url s.last_pr_url
    last_pr_title := updField u.last_pr_title s.last_pr_title
    stopped_at := updField u.stopped_at s.stopped_at }

/-- `crud.stop_session` (crud/__init__.py lines 62–67): set
`status = "stopped"` and `stopped_at = datetime.now(...)`,
unconditionally. -/
def crud_stop_session (s : AgentSession) (now : Nat) : AgentSession :=
  { s with status := "stopped", stopped_at := some now }

/-- `crud.create_session` (crud/__init__.py lines 15–29): a fresh row with
the repo descriptor; every container binding is `NULL` and `status`
takes its column default `pending`. -/
def create_session (uid : Nat) (repo_full_name repo_name branch : String) :
    AgentSession :=
  { user_id := uid, repo_full_name := repo_full_name,
    repo_name := repo_name, branch := branch }

/-! ## The sessions router (`app/routers/sessions.py`) -/

/-- A raised `HTTPException(status_code, detail)`. -/
structure HttpError where
  code : Nat
  detail : String
deriving DecidableEq

/-- The port mapping returned by `_start_container_sync`
(docker_manager.py lines 163–170). -/
structure ContainerStartInfo where
  container_id : String
  container_name : String
  network_name : String
  code_server_port : Nat
  agent_api_port : Nat
  dev_server_port : Nat
deriving DecidableEq

/-- Side effects of the start route, in program order: persisting the
pending row, connecting to the Docker daemon (`get_docker_manager`), and
`start_agent_container` (which itself performs the port allocation and
network/container creation). -/
inductive StartEffect where
  | createSessionRow
  | connectDocker
  | startContainer
deriving DecidableEq

instance exceptDecidableEq {ε α : Type} [DecidableEq ε] [DecidableEq α] :
    DecidableEq (Except ε α) := fun x y =>
  match x, y with
  | .ok a, .ok b =>
    if h : a = b then .isTrue (by subst h; rfl)
    else .isFalse (fun hc => by cases hc; exact h rfl)
  | .ok _, .error _ => .isFalse (fun hc => by cases hc)
  | .error _, .ok _ => .isFalse (fun hc => by cases hc)
  | .error e, .error f =>
    if h : e = f then .isTrue (by subst h; rfl)
    else .isFalse (fun hc => by cases hc; exact h rfl)

/-- Environment of a start request: whether `docker.from_env()` succeeds,
and what `start_agent_container` returns (`.error` models any raised
exception, including port exhaustion and container-launch failure). -/
structure StartEnv where
  daemonOk : Bool
  startResult : Except String ContainerStartInfo
deriving DecidableEq

structure StartRouteOut where
  row : Option AgentSession
  response : Except HttpError AgentSession
  effects : List StartEffect
deriving DecidableEq

/-- Python truthiness of `user.github_pat or settings.github_pat`:
`user.github_pat` is a nullable column, `settings.github_pat` defaults to
the empty string; `None` and `""` are both falsy. -/
def effective_pat (userPat : Option String) (globalPat : String) : String :=
  match userPat with
  | some p => if p = "" then globalPat else p
  | none => globalPat

/-- The update the router builds on success (routers/sessions.py lines
62–69). -/
def runningUpdate (info : ContainerStartInfo) : AgentSessionUpdate :=
  { status := some "running",
    container_id := some info.container_id,
    container_name := some info.container_name,
    code_server_port := some info.code_server_port,
    agent_api_port := some info.agent_api_port,
    dev_server_port := some info.dev_server_port }

/-- `AgentSessionUpdate(status=...)` with every other field left `None`
(routers/sessions.py lines 47 and 72). -/
def statusUpdate (st : String) : AgentSessionUpdate :=
  { status := some st }

/-- `start_session` route (routers/sessions.py lines 32–75).  `row` is the
persisted row when the call returns (`none` if no row was ever created);
`effects` is the ordered list of side-effecting steps reached. -/
def start_session_route (userPat : Option String) (globalPat : String)
    (uid : Nat) (repo_full_name repo_name branch : String)
    (env : StartEnv) : StartRouteOut :=
  let pat := effective_pat userPat globalPat
  if pat = "" then
    { row := none,
      response := .error ⟨422, "GitHub PAT not configured."⟩,
      effects := [] }
  else
    let s0 := create_session uid repo_full_name repo_name branch
    if env.daemonOk = false then
      let s1 := update_session s0 (statusUpdate "error")
      { row := some s1,
        response := .error ⟨503,
          "Cannot connect to Docker daemon. Check that the Docker socket is mounted and the app has permission."⟩,
        effects := [.createSessionRow, .connectDocker] }
    else
      match env.startResult with
      | .ok info =>
        let s1 := update_session s0 (runningUpdate info)
        { row := some s1,
          response := .ok s1,
          effects := [.createSessionRow, .connectDocker, .startContainer] }
      | .error msg =>
        let s1 := update_session s0 (statusUpdate "error")
        { row := some s1,
          response := .error ⟨500, "Container start failed: " ++ msg⟩,
          effects := [.createSessionRow, .connectDocker, .startContainer] }

/-! ## Container engine world (`docker_manager.py`) -/

/-- A container as the engine reports it: `networks` is the
`NetworkSettings.Networks` map of network name to `NetworkID`, in dict
(insertion) order. -/
structure DCont where
  id : String
  name : String
  status : String := "running"
  labels : List (String × String) := []
  networks : List (String × String) := []
deriving DecidableEq

/-- A network: `members` is the `Containers` attribute, the map of
container id to its `Name` entry, in dict order. -/
structure DNet where
  id : String
  name : String
  members : List (String × String) := []
deriving DecidableEq

/-- The engine's observable state, plus an abstract flag for
`container.stop()` / `container.remove()` raising. -/
structure DockerWorld where
  containers : List DCont := []
  networks : List DNet := []
  stopFailure : Option String := none
deriving DecidableEq

/-- Python `labels.get(key, default)` over a dict modelled as an assoc
list. -/
def labelGet (ls : List (String × String)) (k d : String) : String :=
  match ls.find? (fun p => p.1 == k) with
  | some p => p.2
  | none => d

def removeContainer (w : DockerWorld) (cid : String) : DockerWorld :=
  { w with containers := w.containers.filter (fun c => !(c.id == cid)) }

def removeNetworkByName (w : DockerWorld) (n : String) : DockerWorld :=
  { w with networks := w.networks.filter (fun m => !(m.name == n)) }

/-- `_stop_container_sync` (docker_manager.py lines 178–197):
`containers.get` raising `NotFound` is caught — a warning, success;
otherwise stop/remove (which may raise, modelled by `stopFailure`),
then best-effort removal of the session's `rv-net-…` network with
`NotFound` passed over. -/
def stop_container_sync (w : DockerWorld) (container_id : String) :
    Except String DockerWorld :=
  match w.containers.find? (fun c => c.id == container_id) with
  | none => .ok w
  | some c =>
    match w.stopFailure with
    | some m => .error m
    | none =>
      let sid := labelGet c.labels "rv.session_id" ""
      let w1 := removeContainer w container_id
      .ok (if sid = "" then w1
           else removeNetworkByName w1 ("rv-net-" ++ sid.take 8))

structure StopRouteOut where
  row : Option AgentSession
  world : DockerWorld
  response : Except HttpError Nat
deriving DecidableEq

/-- `stop_session` route (routers/sessions.py lines 181–201): 404 unless
the session exists and the caller owns it; if a container id is recorded,
`stop_container` is attempted and any exception is logged, not surfaced;
`crud.stop_session` then runs unconditionally and 204 is returned. -/
def stop_session_route (sess : Option AgentSession) (callerUid : Nat)
    (w : DockerWorld) (now : Nat) : StopRouteOut :=
  match sess with
  | none => { row := none, world := w,
              response := .error ⟨404, "Session not found."⟩ }
  | some s =>
    if s.user_id ≠ callerUid then
      { row := some s, world := w,
        response := .error ⟨404, "Session not found."⟩ }
    else
      let w1 := match s.container_id with
        | none => w
        | some cid =>
          match stop_container_sync w cid with
          | .ok w2 => w2
          | .error _ => w
      { row := some (crud_stop_session s now), world := w1,
        response := .ok 204 }

/-- C1.  Whenever the start route has persisted the pending row and a
failure then occurs (Docker daemon unreachable, or `start_agent_container`
raising — port allocation, network creation or container launch), the
persisted row ends in status `error` and an `HTTPException` is propagated;
and on no path does the call return with the row still `pending`. -/
theorem start_failure_marks_error_never_pending
    (userPat : Option String) (globalPat : String) (uid : Nat)
    (repo_full_name repo_name branch : String) (env : StartEnv) :
    (∀ r, (start_session_route userPat globalPat uid repo_full_name
              repo_name branch env).row = some r → r.status ≠ "pending") ∧
    (((start_session_route userPat globalPat uid repo_full_name
          repo_name branch env).row.isSome = true ∧
      (env.daemonOk = false ∨ ∃ m, env.startResult = .error m)) →
      ∃ r, (start_session_route userPat globalPat uid repo_full_name
              repo_name branch env).row = some r ∧ r.status = "error" ∧
        ∃ e, (start_session_route userPat globalPat uid repo_full_name
                repo_name branch env).response = .error e) := by
  unfold start_session_route
  by_cases hp : effective_pat userPat globalPat = ""
  · simp [hp]
  · rw [if_neg hp]
    by_cases hd : env.daemonOk = false
    · rw [if_pos hd]
      constructor
      · intro r hr
        injection hr with hr
        subst hr
        simp [update_session, statusUpdate, updField, create_session]
      · intro _
        exact ⟨_, rfl, by simp [update_session, statusUpdate, updField,
          create_session], _, rfl⟩
    · rw [if_neg hd]
      cases hres : env.startResult with
      | ok info =>
        constructor
        · intro r hr
          injection hr with hr
          subst hr
          simp [update_session, runningUpdate, updField, create_session]
        · rintro ⟨_, hfail | ⟨m, hm⟩⟩
          · exact absurd hfail hd
          · exact Except.noConfusion hm
      | error msg =>
        constructor
        · intro r hr
          injection hr with hr
          subst hr
          simp [update_session, statusUpdate, updField, create_session]
        · intro _
          exact ⟨_, rfl, by simp [update_session, statusUpdate, updField,
            create_session], _, rfl⟩

theorem start_failure_marks_error_never_pending_witness :
    ((start_session_route (some "ghp_x") "" 1 "acme/widgets" "widgets"
        "main" ⟨false, .error "boom"⟩).row.isSome = true ∧
     ((⟨false, .error "boom"⟩ : StartEnv).daemonOk = false ∨
      ∃ m, (⟨false, .error "boom"⟩ : StartEnv).startResult = .error m)) ∧
    (∃ r, (start_session_route (some "ghp_x") "" 1 "acme/widgets" "widgets"
            "main" ⟨false, .error "boom"⟩).row = some r ∧
       r.status = "error" ∧
       ∃ e, (start_session_route (some "ghp_x") "" 1 "acme/widgets"
               "widgets" "main" ⟨false, .error "boom"⟩).response = .error e) :=
  ⟨⟨by decide, Or.inl rfl⟩,
   (start_failure_marks_error_never_pending (some "ghp_x") "" 1
      "acme/widgets" "widgets" "main" ⟨false, .error "boom"⟩).2
     ⟨by decide, Or.inl rfl⟩⟩

/-- C9.  A start request with no usable credential — the caller has no
per-user PAT (or an empty one) and the global setting is empty — is
rejected with 422 before any side effect: no session row is created, the
Docker daemon is never contacted, and no port allocation or
network/container creation happens. -/
theorem start_no_credential_rejected_without_effects
    (userPat : Option String) (globalPat : String) (uid : Nat)
    (repo_full_name repo_name branch : String) (env : StartEnv)
    (h : effective_pat userPat globalPat = "") :
    start_session_route userPat globalPat uid repo_full_name repo_name
        branch env =
      { row := none,
        response := .error ⟨422, "GitHub PAT not configured."⟩,
        effects := [] } := by
  unfold start_session_route
  rw [h]
  simp

theorem start_no_credential_rejected_without_effects_witness :
    effective_pat none "" = "" ∧
    start_session_route none "" 7 "acme/widgets" "widgets" "main"
        ⟨true, .ok ⟨"cid", "rv-agent-x", "rv-net-x", 9000, 9001, 9002⟩⟩ =
      { row := none,
        response := .error ⟨422, "GitHub PAT not configured."⟩,
        effects := [] } :=
  ⟨by decide,
   start_no_credential_rejected_without_effects none "" 7 "acme/widgets"
     "widgets" "main" ⟨true, .ok ⟨"cid", "rv-agent-x", "rv-net-x", 9000, 9001, 9002⟩⟩
     (by decide)⟩

/-- C3.  Once the ownership check passes, the stop route always updates
the row to `stopped` with a stop timestamp and answers 204 — whatever the
engine does (`stop`/`remove` raising is swallowed; a vanished container is
`NotFound`, treated as success by `_stop_container_sync`) — and a second
stop on the resulting row again yields `stopped` with no surfaced
error. -/
theorem stop_marks_stopped_and_is_idempotent
    (s : AgentSession) (caller : Nat) (w w2 : DockerWorld) (now now2 : Nat)
    (hown : s.user_id = caller) :
    ((stop_session_route (some s) caller w now).response = .ok 204 ∧
     (stop_session_route (some s) caller w now).row =
       some (crud_stop_session s now) ∧
     (crud_stop_session s now).status = "stopped" ∧
     (crud_stop_session s now).stopped_at = some now) ∧
    ((stop_session_route ((stop_session_route (some s) caller w now).row)
        caller w2 now2).response = .ok 204 ∧
     ∃ s2, (stop_session_route ((stop_session_route (some s) caller w
              now).row) caller w2 now2).row = some s2 ∧
       s2.status = "stopped") ∧
    (∀ cid, w.containers.find? (fun c => c.id == cid) = none →
      stop_container_sync w cid = .ok w) := by
  have hne : ¬ (s.user_id ≠ caller) := by simp [hown]
  refine ⟨?_, ?_, ?_⟩
  · simp only [stop_session_route]
    rw [if_neg hne]
    exact ⟨rfl, rfl, rfl, rfl⟩
  · have hrow : (stop_session_route (some s) caller w now).row =
        some (crud_stop_session s now) := by
      simp only [stop_session_route]
      rw [if_neg hne]
    rw [hrow]
    have hne2 : ¬ ((crud_stop_session s now).user_id ≠ caller) := by
      simp [crud_stop_session, hown]
    simp only [stop_session_route]
    rw [if_neg hne2]
    exact ⟨rfl, _, rfl, rfl⟩
  · intro cid hnone
    simp only [stop_container_sync, hnone]

theorem stop_marks_stopped_and_is_idempotent_witness :
    ({ user_id := 1, repo_full_name := "acme/widgets",
       repo_name := "widgets", status := "running",
       container_id := some "cid0" : AgentSession }).user_id = 1 ∧
    (stop_session_route
        (some { user_id := 1, repo_full_name := "acme/widgets",
                repo_name := "widgets", status := "running",
                container_id := some "cid0" }) 1 {} 5).response = .ok 204 :=
  ⟨rfl,
   (((stop_marks_stopped_and_is_idempotent
       { user_id := 1, repo_full_name := "acme/widgets",
         repo_name := "widgets", status := "running",
         container_id := some "cid0" } 1 {} {} 5 6 rfl).1).1)⟩

/-- C8 counterexample.  `crud.stop_session` sets
`stopped_at = datetime.now(...)` unconditionally and the stop route never
checks whether the session is already `stopped`: stopping the same
session at instant 1 and again at instant 2 leaves `stopped_at = 2`, so a
subsequent operation does modify an already-set stop timestamp. -/
theorem stopped_at_overwritten_on_second_stop :
    ((stop_session_route
        (some { user_id := 1, repo_full_name := "acme/widgets",
                repo_name := "widgets", status := "running" }) 1 {} 1).row.map
      (fun r => r.stopped_at)) = some (some 1) ∧
    ((stop_session_route
        ((stop_session_route
            (some { user_id := 1, repo_full_name := "acme/widgets",
                    repo_name := "widgets", status := "running" }) 1 {} 1).row)
        1 {} 2).row.map (fun r => r.stopped_at)) = some (some 2) ∧
    (some (some 2) : Option (Option Nat)) ≠ some (some 1) := by
  refine ⟨?_, ?_, by decide⟩ <;> rfl

/-- C8 amended.  The stop timestamp is set by — and only by — a stop call
that passes the ownership check, to the instant of that call; repeated
stop calls therefore overwrite it with the newer instant rather than
leaving the first value in place.  The start route's updates (the
`running` update and the `error` status update) never touch
`stopped_at`. -/
theorem stopped_at_set_on_each_stop
    (s : AgentSession) (caller : Nat) (w : DockerWorld) (now : Nat)
    (hown : s.user_id = caller) :
    (∃ s1, (stop_session_route (some s) caller w now).row = some s1 ∧
       s1.stopped_at = some now) ∧
    (∀ st, (update_session s (statusUpdate st)).stopped_at = s.stopped_at) ∧
    (∀ info, (update_session s (runningUpdate info)).stopped_at =
       s.stopped_at) := by
  have hne : ¬ (s.user_id ≠ caller) := by simp [hown]
  refine ⟨?_, ?_, ?_⟩
  · refine ⟨crud_stop_session s now, ?_, rfl⟩
    simp only [stop_session_route]
    rw [if_neg hne]
  · intro st; rfl
  · intro info; rfl

theorem stopped_at_set_on_each_stop_witness :
    ({ user_id := 3, repo_full_name := "a/b", repo_name := "b"
       : AgentSession }).user_id = 3 ∧
    ∃ s1, (stop_session_route
        (some { user_id := 3, repo_full_name := "a/b", repo_name := "b" })
        3 {} 9).row = some s1 ∧ s1.stopped_at = some 9 :=
  ⟨rfl,
   (stopped_at_set_on_each_stop
      { user_id := 3, repo_full_name := "a/b", repo_name := "b" }
      3 {} 9 rfl).1⟩

/-- C10.  Container bindings survive later persisted-state operations:
`crud.stop_session` changes only `status` and `stopped_at`; the
status-only update used on a failed start changes only `status`; and
because `model_dump(exclude_none=True)` drops absent fields, no
`update_session` call resets an already-set binding to `NULL`. -/
theorem bindings_preserved_by_later_updates
    (s : AgentSession) (u : AgentSessionUpdate) (now : Nat) (st : String) :
    ((crud_stop_session s now).container_id = s.container_id ∧
     (crud_stop_session s now).container_name = s.container_name ∧
     (crud_stop_session s now).code_server_port = s.code_server_port ∧
     (crud_stop_session s now).agent_api_port = s.agent_api_port ∧
     (crud_stop_session s now).dev_server_port = s.dev_server_port ∧
     (crud_stop_session s now).user_id = s.user_id ∧
     (crud_stop_session s now).repo_full_name = s.repo_full_name ∧
     (crud_stop_session s now).repo_name = s.repo_name ∧
     (crud_stop_session s now).branch = s.branch ∧
     (crud_stop_session s now).tunnel_url = s.tunnel_url ∧
     (crud_stop_session s now).tunnel_active = s.tunnel_active ∧
     (crud_stop_session s now).last_pr_url = s.last_pr_url ∧
     (crud_stop_session s now).last_pr_title = s.last_pr_title) ∧
    (update_session s (statusUpdate st) = { s with status := st }) ∧
    ((s.container_id ≠ none → (update_session s u).container_id ≠ none) ∧
     (s.container_name ≠ none → (update_session s u).container_name ≠ none) ∧
     (s.code_server_port ≠ none →
       (update_session s u).code_server_port ≠ none) ∧
     (s.agent_api_port ≠ none → (update_session s u).agent_api_port ≠ none) ∧
     (s.dev_server_port ≠ none →
       (update_session s u).dev_server_port ≠ none)) := by
  refine ⟨⟨rfl, rfl, rfl, rfl, rfl, rfl, rfl, rfl, rfl, rfl, rfl, rfl, rfl⟩,
    rfl, ?_, ?_, ?_, ?_, ?_⟩ <;> intro h <;>
    simp only [update_session, updField] <;>
    [cases u.container_id; cases u.container_name; cases u.code_server_port;
     cases u.agent_api_port; cases u.dev_server_port] <;>
    simp_all

theorem bindings_preserved_by_later_updates_witness :
    (({ user_id := 1, repo_full_name := "a/b", repo_name := "b",
        container_id := some "cid", code_server_port := some 9000,
        agent_api_port := some 9001, dev_server_port := some 9002,
        container_name := some "rv-agent-x" : AgentSession }).container_id
      ≠ none) ∧
    ((update_session
        { user_id := 1, repo_full_name := "a/b", repo_name := "b",
          container_id := some "cid", code_server_port := some 9000,
          agent_api_port := some 9001, dev_server_port := some 9002,
          container_name := some "rv-agent-x" }
        (statusUpdate "error")).container_id ≠ none) :=
  ⟨by decide,
   (bindings_preserved_by_later_updates
      { user_id := 1, repo_full_name := "a/b", repo_name := "b",
        container_id := some "cid", code_server_port := some 9000,
        agent_api_port := some 9001, dev_server_port := some 9002,
        container_name := some "rv-agent-x" }
      (statusUpdate "error") 0 "error").2.2.1 (by decide)⟩

/-! ## Agent proxy chat stream (`app/services/copilot_agent.py`)

SSE lines are modelled as explicit character lists with executable
versions of the Python `str` operations the loop uses
(`startswith`, `[5:]` slicing, `strip()`), so that concrete runs
evaluate inside the kernel. -/

/-- `ChunkType` (copilot-phone-agent/app/schemas/chat.py). -/
inductive ChunkType where
  | thinking
  | tool_call
  | tool_result
  | status
  | text
  | done
  | error
deriving DecidableEq

/-- `StreamChunk`: the structured chunk relayed per SSE event. -/
structure StreamChunk where
  type : ChunkType
  content : String
  tool_name : Option String := none
deriving DecidableEq

/-- Python `str.startswith` over character lists. -/
def listStartsWith : List Char → List Char → Bool
  | _, [] => true
  | [], _ :: _ => false
  | c :: cs, p :: ps => c == p && listStartsWith cs ps

/-- The whitespace `str.strip()` removes (the ASCII cases that occur in
SSE framing). -/
def isStripChar (c : Char) : Bool :=
  c == ' ' || c == '\t' || c == '\n' || c == '\r'

def dropWhileStrip : List Char → List Char
  | [] => []
  | c :: cs => if isStripChar c then dropWhileStrip cs else c :: cs

/-- Python `str.strip()`: drop trailing, then leading, whitespace. -/
def listStrip (l : List Char) : List Char :=
  dropWhileStrip ((dropWhileStrip l.reverse).reverse)

/-- How the transport finishes after delivering the lines:
`closed` is a normal end of the server stream; the others model
`httpx.TimeoutException`, `httpx.HTTPStatusError` (incl.
`raise_for_status`, in which case no line was delivered) and any other
exception. -/
inductive StreamEnding where
  | closed
  | timeout
  | httpStatus (code : Nat)
  | other (msg : String)
deriving DecidableEq

/-- The per-line loop of `stream_chat` (copilot_agent.py lines 53–63):
skip lines not starting with `data:`; `line[5:].strip()`; stop on the
literal `[DONE]`; `model_validate_json` — abstracted as `parse`, `none`
when it raises — yields a chunk or logs-and-skips.  Returns the yielded
chunks and whether `[DONE]` was reached. -/
def processLines (parse : List Char → Option StreamChunk) :
    List (List Char) → (List StreamChunk × Bool)
  | [] => ([], false)
  | l :: rest =>
    if listStartsWith l "data:".data = false then processLines parse rest
    else if listStrip (l.drop 5) = "[DONE]".data then ([], true)
    else
      match parse (listStrip (l.drop 5)) with
      | some c =>
        let r := processLines parse rest
        (c :: r.1, r.2)
      | none => processLines parse rest

/-- The single synthetic chunk each `except` arm of `stream_chat` yields
(copilot_agent.py lines 64–70); `none` for a normal close. -/
def synth_error_chunk : StreamEnding → Option StreamChunk
  | .closed => none
  | .timeout => some ⟨.error, "Agent request timed out.", none⟩
  | .httpStatus c => some ⟨.error, "Agent HTTP error: " ++ toString c, none⟩
  | .other m => some ⟨.error, "Unexpected error: " ++ m, none⟩

/-- `CopilotAgentClient.stream_chat` (copilot_agent.py lines 31–70) as the
chunk sequence the caller receives: the parsed chunks, then — only when
`[DONE]` was not reached and the transport ended exceptionally — one
synthetic error chunk. -/
def stream_chat (parse : List Char → Option StreamChunk)
    (lines : List (List Char)) (ending : StreamEnding) : List StreamChunk :=
  let r := processLines parse lines
  if r.2 then r.1
  else
    match synth_error_chunk ending with
    | none => r.1
    | some e => r.1 ++ [e]

/-- C4.  The chunk sequence of `stream_chat` (i) is either the parsed
chunks alone (normal end: `[DONE]` or server close) or the parsed chunks
followed by exactly one error-kind chunk; (ii) every exceptional
transport ending contributes exactly its single synthetic error chunk at
the end; (iii) a malformed or non-`data:` event is skipped without
affecting the rest of the stream; and (iv) provided the agent itself sent
no error-kind chunk, every chunk before the last is non-error — nothing
follows an error chunk. -/
theorem stream_chat_single_terminal_error
    (parse : List Char → Option StreamChunk) (lines : List (List Char))
    (ending : StreamEnding) :
    (stream_chat parse lines ending = (processLines parse lines).1 ∨
     ∃ e, stream_chat parse lines ending =
        (processLines parse lines).1 ++ [e] ∧ e.type = ChunkType.error) ∧
    (∀ e, synth_error_chunk ending = some e →
      (processLines parse lines).2 = false →
      stream_chat parse lines ending =
        (processLines parse lines).1 ++ [e] ∧ e.type = ChunkType.error) ∧
    (∀ l, (listStartsWith l "data:".data = false ∨
           (listStrip (l.drop 5) ≠ "[DONE]".data ∧
            parse (listStrip (l.drop 5)) = none)) →
      stream_chat parse (l :: lines) ending =
        stream_chat parse lines ending) ∧
    ((∀ c ∈ (processLines parse lines).1, c.type ≠ ChunkType.error) →
      ∀ c ∈ (stream_chat parse lines ending).dropLast,
        c.type ≠ ChunkType.error) := by
  have hsynth : ∀ e, synth_error_chunk ending = some e →
      e.type = ChunkType.error := by
    intro e he
    cases ending <;> simp [synth_error_chunk] at he <;> rw [← he]
  have hshape : stream_chat parse lines ending =
        (processLines parse lines).1 ∨
      ∃ e, stream_chat parse lines ending =
        (processLines parse lines).1 ++ [e] ∧ e.type = ChunkType.error := by
    unfold stream_chat
    by_cases hd : (processLines parse lines).2 = true
    · left; rw [if_pos hd]
    · rw [if_neg hd]
      cases hse : synth_error_chunk ending with
      | none => left; rfl
      | some e => right; exact ⟨e, rfl, hsynth e hse⟩
  refine ⟨hshape, ?_, ?_, ?_⟩
  · intro e he hd
    unfold stream_chat
    rw [if_neg (by rw [hd]; exact Bool.false_ne_true), he]
    exact ⟨rfl, hsynth e he⟩
  · intro l hl
    have hproc : processLines parse (l :: lines) =
        processLines parse lines := by
      rcases hl with h1 | ⟨h2, h3⟩
      · simp only [processLines, h1]
        rw [if_pos trivial]
      · by_cases h1 : listStartsWith l "data:".data = false
        · simp only [processLines, h1]
          rw [if_pos trivial]
        · simp only [processLines]
          rw [if_neg (by simp_all), if_neg h2, h3]
    unfold stream_chat
    rw [hproc]
  · intro hno c hc
    rcases hshape with h | ⟨e, he, _⟩
    · rw [h] at hc
      exact hno c (List.dropLast_subset _ hc)
    · rw [he, List.dropLast_concat] at hc
      exact hno c hc

theorem stream_chat_single_terminal_error_witness :
    stream_chat
        (fun raw => if raw = "ok".data
          then some ⟨ChunkType.text, "hi", none⟩ else none)
        ["data: ok".data, "noise".data, "data: bad".data]
        StreamEnding.timeout =
      (processLines
        (fun raw => if raw = "ok".data
          then some ⟨ChunkType.text, "hi", none⟩ else none)
        ["data: ok".data, "noise".data, "data: bad".data]).1 ++
        [⟨ChunkType.error, "Agent request timed out.", none⟩] ∧
    (⟨ChunkType.error, "Agent request timed out.", none⟩ : StreamChunk).type =
      ChunkType.error :=
  (stream_chat_single_terminal_error
      (fun raw => if raw = "ok".data
        then some ⟨ChunkType.text, "hi", none⟩ else none)
      ["data: ok".data, "noise".data, "data: bad".data]
      StreamEnding.timeout).2.1
    ⟨ChunkType.error, "Agent request timed out.", none⟩ rfl (by decide)

/-! ## Compose-service restart (route: routers/sessions.py lines 159–178) -/

/-- A command executed inside a container (as opposed to in the
orchestrator process). -/
structure ExecRequest where
  container : String
  cmd : String
deriving DecidableEq

/-- Modelled from the spec: `DockerManager.restart_compose_service` is
invoked by the sessions router (routers/sessions.py line 174) but no such
method exists in `src/app/services/docker_manager.py` — the definition is
not under `src/`.  Per spec §4.3, restart is "pull + force-recreate"
executed as a privileged command inside the session's managed container
(which holds the compose project context). -/
def restart_compose_service (session_id service : String) : ExecRequest :=
  { container := "rv-agent-" ++ session_id.take 8,
    cmd := "docker compose pull " ++ service ++
           " && docker compose up -d --force-recreate " ++ service }

structure RestartRouteOut where
  request : Option ExecRequest
  offMainThread : Bool
  response : Except HttpError (String × String)
deriving DecidableEq

/-- `restart_compose_service` route (routers/sessions.py lines 159–178):
404 unless the session exists and is caller-owned; the manager call runs
through `run_in_executor` (off the request-handling event loop); a
`RuntimeError` becomes a 500; otherwise `{output, service}` is
returned. -/
def restart_compose_service_route (sess : Option AgentSession)
    (callerUid : Nat) (session_id service : String)
    (execRun : ExecRequest → Except String String) : RestartRouteOut :=
  match sess with
  | none => { request := none, offMainThread := false,
              response := .error ⟨404, "Session not found."⟩ }
  | some s =>
    if s.user_id ≠ callerUid then
      { request := none, offMainThread := false,
        response := .error ⟨404, "Session not found."⟩ }
    else
      let req := restart_compose_service session_id service
      match execRun req with
      | .ok output =>
        { request := some req, offMainThread := true,
          response := .ok (output, service) }
      | .error m =>
        { request := some req, offMainThread := true,
          response := .error ⟨500, m⟩ }

/-- C6.  For an owned session, the restart route executes exactly one
command — a pull plus force-recreate of the named compose service — and
it runs inside the session's managed container `rv-agent-<sid[:8]>`, not
in the orchestrator, off the main request-handling thread; on success the
command output is returned to the caller together with the service
name. -/
theorem restart_runs_pull_recreate_in_managed_container
    (s : AgentSession) (caller : Nat) (session_id service output : String)
    (execRun : ExecRequest → Except String String)
    (hown : s.user_id = caller)
    (hexec : execRun (restart_compose_service session_id service) =
      .ok output) :
    (restart_compose_service_route (some s) caller session_id service
        execRun).request = some
      { container := "rv-agent-" ++ session_id.take 8,
        cmd := "docker compose pull " ++ service ++
               " && docker compose up -d --force-recreate " ++ service } ∧
    (restart_compose_service_route (some s) caller session_id service
        execRun).offMainThread = true ∧
    (restart_compose_service_route (some s) caller session_id service
        execRun).response = .ok (output, service) := by
  have hne : ¬ (s.user_id ≠ caller) := by simp [hown]
  simp only [restart_compose_service_route]
  rw [if_neg hne, hexec]
  exact ⟨rfl, rfl, rfl⟩

theorem restart_runs_pull_recreate_in_managed_container_witness :
    ({ user_id := 2, repo_full_name := "a/b", repo_name := "b"
       : AgentSession }).user_id = 2 ∧
    (restart_compose_service_route
        (some { user_id := 2, repo_full_name := "a/b", repo_name := "b" })
        2 "sess1234rest" "web" (fun _ => .ok "pulled")).response =
      .ok ("pulled", "web") :=
  ⟨rfl,
   (restart_runs_pull_recreate_in_managed_container
      { user_id := 2, repo_full_name := "a/b", repo_name := "b" }
      2 "sess1234rest" "web" "pulled" (fun _ => .ok "pulled")
      rfl rfl).2.2⟩

/-! ## Compose-sibling discovery
(`get_compose_containers_for_session`, docker_manager.py lines 228–282) -/

/-- The orchestrator-internal naming conventions skipped by the network
walk (docker_manager.py line 247). -/
def skipPrefixList : List String := ["rv-net-", "rv_", "bridge", "host", "none"]

/-- `any(net_name.startswith(p) or net_name == p for p in skip_prefixes)`. -/
def isSkippedNet (n : String) : Bool :=
  skipPrefixList.any (fun p => listStartsWith n.data p.data || n == p)

/-- One row of the result list (docker_manager.py lines 270–277). -/
structure ComposeEntry where
  id : String
  name : String
  service : String
  status : String
  compose_project : String
  network : String
deriving DecidableEq

def mkComposeEntry (c : DCont) (netName : String) : ComposeEntry :=
  { id := c.id.take 12,
    name := c.name,
    service := labelGet c.labels "com.docker.compose.service" c.name,
    status := c.status,
    compose_project := labelGet c.labels "com.docker.compose.project" "",
    network := netName }

/-- Python `cid in seen_ids`. -/
def seenHas (seen : List String) (x : String) : Bool :=
  seen.any (fun y => x == y)

/-- The inner loop over one network's `Containers` dict (docker_manager.py
lines 261–279): dedup by container id across networks (the id is marked
seen before the self-check), skip the agent container by name, skip ids
whose container lookup raises `NotFound`. -/
def collectMembers (w : DockerWorld) (agentName netName : String) :
    List (String × String) → List String → (List ComposeEntry × List String)
  | [], seen => ([], seen)
  | m :: rest, seen =>
    if seenHas seen m.1 then collectMembers w agentName netName rest seen
    else
      let seen1 := m.1 :: seen
      if m.2 == agentName then collectMembers w agentName netName rest seen1
      else
        match w.containers.find? (fun c => c.id == m.1) with
        | some c =>
          let r := collectMembers w agentName netName rest seen1
          (mkComposeEntry c netName :: r.1, r.2)
        | none => collectMembers w agentName netName rest seen1

/-- The outer loop over the agent's network memberships (docker_manager.py
lines 249–259): skip orchestrator-internal names, skip empty network ids,
skip networks whose inspection fails. -/
def collectNetworks (w : DockerWorld) (agentName : String) :
    List (String × String) → List String → List ComposeEntry
  | [], _ => []
  | nm :: rest, seen =>
    if isSkippedNet nm.1 then collectNetworks w agentName rest seen
    else if nm.2 == "" then collectNetworks w agentName rest seen
    else
      match w.networks.find? (fun n => n.id == nm.2) with
      | none => collectNetworks w agentName rest seen
      | some net =>
        let r := collectMembers w agentName nm.1 net.members seen
        r.1 ++ collectNetworks w agentName rest r.2

/-- Python string comparison (lexicographic by code point) on character
lists, as used by `result.sort(key=lambda x: x["service"])`. -/
def charListLe : List Char → List Char → Bool
  | [], _ => true
  | _ :: _, [] => false
  | c :: cs, d :: ds => if c == d then charListLe cs ds else decide (c < d)

def insertByService (x : ComposeEntry) :
    List ComposeEntry → List ComposeEntry
  | [] => [x]
  | y :: ys =>
    if charListLe y.service.data x.service.data then y :: insertByService x ys
    else x :: y :: ys

/-- A stable ascending sort by service name, modelling the final
`result.sort(key=lambda x: x["service"])`. -/
def sortByService (l : List ComposeEntry) : List ComposeEntry :=
  l.foldl (fun acc x => insertByService x acc) []

/-- `get_compose_containers_for_session` (docker_manager.py lines
228–282). -/
def get_compose_containers_for_session (w : DockerWorld)
    (session_id : String) : List ComposeEntry :=
  match w.containers.find?
      (fun c => c.name == "rv-agent-" ++ session_id.take 8) with
  | none => []
  | some agent =>
    sortByService
      (collectNetworks w ("rv-agent-" ++ session_id.take 8)
        agent.networks [])

theorem collectNetworks_skips_internal (w : DockerWorld) (an : String) :
    ∀ nets seen, collectNetworks w an nets seen =
      collectNetworks w an
        (nets.filter (fun nm => !(isSkippedNet nm.1))) seen := by
  intro nets
  induction nets with
  | nil => intro seen; rfl
  | cons nm rest ih =>
    intro seen
    by_cases hs : isSkippedNet nm.1 = true
    · simp only [collectNetworks, hs, if_true, List.filter_cons,
        Bool.not_true, Bool.false_eq_true, if_false]
      exact ih seen
    · have hs' : isSkippedNet nm.1 = false := eq_false_of_ne_true hs
      simp only [collectNetworks, hs', Bool.false_eq_true, if_false,
        List.filter_cons, Bool.not_false, if_true]
      by_cases he : (nm.2 == "") = true
      · simp only [collectNetworks, hs', Bool.false_eq_true, if_false,
          he, if_true]
        exact ih seen
      · have he' : (nm.2 == "") = false := eq_false_of_ne_true he
        simp only [collectNetworks, hs', Bool.false_eq_true, if_false,
          he', if_true]
        cases hf : w.networks.find? (fun n => n.id == nm.2) with
        | none =>
          simp only [hf]
          exact ih seen
        | some net =>
          simp only [hf]
          rw [ih]

/-- C7.  For a managed container joined (besides orchestrator-internal
networks) to exactly one external network whose membership consists of
the agent itself and two peer containers — in any dict order — the
discovery returns exactly the two peers: internal networks are filtered
by name, the agent is excluded by name, ids are deduplicated via the
seen-set, and the result is sorted ascending by inferred compose service
name. -/
theorem compose_siblings_two_peers
    (w : DockerWorld) (sid : String) (agent : DCont) (extNet : DNet)
    (agentName extName extId aid id1 id2 n1 n2 : String) (c1 c2 : DCont)
    (hanEq : agentName = "rv-agent-" ++ sid.take 8)
    (hAgent : w.containers.find?
      (fun c => c.name == agentName) = some agent)
    (hNets : agent.networks.filter (fun nm => !(isSkippedNet nm.1)) =
      [(extName, extId)])
    (hExtId : (extId == "") = false)
    (hNet : w.networks.find? (fun n => n.id == extId) = some extNet)
    (hMembers :
      extNet.members = [(aid, agentName), (id1, n1), (id2, n2)] ∨
      extNet.members = [(aid, agentName), (id2, n2), (id1, n1)] ∨
      extNet.members = [(id1, n1), (aid, agentName), (id2, n2)] ∨
      extNet.members = [(id1, n1), (id2, n2), (aid, agentName)] ∨
      extNet.members = [(id2, n2), (aid, agentName), (id1, n1)] ∨
      extNet.members = [(id2, n2), (id1, n1), (aid, agentName)])
    (hid1a : id1 ≠ aid) (hid2a : id2 ≠ aid) (hid12 : id1 ≠ id2)
    (hn1 : n1 ≠ agentName) (hn2 : n2 ≠ agentName)
    (hc1 : w.containers.find? (fun c => c.id == id1) = some c1)
    (hc2 : w.containers.find? (fun c => c.id == id2) = some c2)
    (hord : charListLe (mkComposeEntry c1 extName).service.data
      (mkComposeEntry c2 extName).service.data = true)
    (hord2 : charListLe (mkComposeEntry c2 extName).service.data
      (mkComposeEntry c1 extName).service.data = false) :
    get_compose_containers_for_session w sid =
      [mkComposeEntry c1 extName, mkComposeEntry c2 extName] := by
  have hskip : isSkippedNet extName = false := by
    have hmem : (extName, extId) ∈
        agent.networks.filter (fun nm => !(isSkippedNet nm.1)) := by
      rw [hNets]; exact List.mem_singleton_self _
    have := (List.mem_filter.mp hmem).2
    simpa using this
  have hb1a : (id1 == aid) = false := by
    rw [beq_eq_false_iff_ne]; exact hid1a
  have hb2a : (id2 == aid) = false := by
    rw [beq_eq_false_iff_ne]; exact hid2a
  have hb12 : (id1 == id2) = false := by
    rw [beq_eq_false_iff_ne]; exact hid12
  have hb21 : (id2 == id1) = false := by
    rw [beq_eq_false_iff_ne]; exact (Ne.symm hid12)
  have hbA1 : (aid == id1) = false := by
    rw [beq_eq_false_iff_ne]; exact (Ne.symm hid1a)
  have hbA2 : (aid == id2) = false := by
    rw [beq_eq_false_iff_ne]; exact (Ne.symm hid2a)
  have hbn1 : (n1 == agentName) = false := by
    rw [beq_eq_false_iff_ne]; exact hn1
  have hbn2 : (n2 == agentName) = false := by
    rw [beq_eq_false_iff_ne]; exact hn2
  have hbagent : (agentName == agentName) = true := beq_self_eq_true _
  have hunfold : get_compose_containers_for_session w sid =
      sortByService (collectNetworks w agentName agent.networks []) := by
    unfold get_compose_containers_for_session
    rw [← hanEq]
    split
    · rename_i hnone
      rw [hAgent] at hnone
      cases hnone
    · rename_i agent2 hsome
      rw [hAgent] at hsome
      injection hsome with h2
      rw [h2]
  rw [hunfold, collectNetworks_skips_internal, hNets]
  have hone : collectNetworks w agentName [(extName, extId)] [] =
      (collectMembers w agentName extName extNet.members []).1 := by
    simp only [collectNetworks, hskip, Bool.false_eq_true, if_false,
      hExtId, hNet, List.append_nil]
  rw [hone]
  rcases hMembers with h | h | h | h | h | h <;> rw [h] <;>
    simp only [collectMembers, seenHas, List.any_nil, List.any_cons,
      Bool.or_false, hb1a, hb2a, hb12, hb21, hbA1, hbA2, hbn1, hbn2,
      hbagent, Bool.false_eq_true, Bool.true_eq_false, if_false, if_true,
      hc1, hc2, sortByService, List.foldl, insertByService, hord, hord2]

theorem compose_siblings_two_peers_witness :
    ("rv-agent-sess1234" : String) = "rv-agent-" ++ "sess1234".take 8 ∧
    get_compose_containers_for_session
      { containers :=
          [{ id := "agent0id", name := "rv-agent-sess1234",
             networks := [("rv-net-sess1234", "xnet"),
                          ("proj_default", "netid1")] },
           { id := "p1", name := "proj-db-1",
             labels := [("com.docker.compose.service", "db"),
                        ("com.docker.compose.project", "proj")] },
           { id := "p2", name := "proj-web-1",
             labels := [("com.docker.compose.service", "web"),
                        ("com.docker.compose.project", "proj")] }],
        networks :=
          [{ id := "netid1", name := "proj_default",
             members := [("agent0id", "rv-agent-sess1234"),
                         ("p1", "proj-db-1"), ("p2", "proj-web-1")] }],
        stopFailure := none }
      "sess1234" =
      [mkComposeEntry
         { id := "p1", name := "proj-db-1",
           labels := [("com.docker.compose.service", "db"),
                      ("com.docker.compose.project", "proj")] } "proj_default",
       mkComposeEntry
         { id := "p2", name := "proj-web-1",
           labels := [("com.docker.compose.service", "web"),
                      ("com.docker.compose.project", "proj")] } "proj_default"] :=
  ⟨by decide,
   compose_siblings_two_peers
     { containers :=
         [{ id := "agent0id", name := "rv-agent-sess1234",
            networks := [("rv-net-sess1234", "xnet"),
                         ("proj_default", "netid1")] },
          { id := "p1", name := "proj-db-1",
            labels := [("com.docker.compose.service", "db"),
                       ("com.docker.compose.project", "proj")] },
          { id := "p2", name := "proj-web-1",
            labels := [("com.docker.compose.service", "web"),
                       ("com.docker.compose.project", "proj")] }],
       networks :=
         [{ id := "netid1", name := "proj_default",
            members := [("agent0id", "rv-agent-sess1234"),
                        ("p1", "proj-db-1"), ("p2", "proj-web-1")] }],
       stopFailure := none }
     "sess1234"
     { id := "agent0id", name := "rv-agent-sess1234",
       networks := [("rv-net-sess1234", "xnet"), ("proj_default", "netid1")] }
     { id := "netid1", name := "proj_default",
       members := [("agent0id", "rv-agent-sess1234"),
                   ("p1", "proj-db-1"), ("p2", "proj-web-1")] }
     "rv-agent-sess1234" "proj_default" "netid1" "agent0id" "p1" "p2"
     "proj-db-1" "proj-web-1"
     { id := "p1", name := "proj-db-1",
       labels := [("com.docker.compose.service", "db"),
                  ("com.docker.compose.project", "proj")] }
     { id := "p2", name := "proj-web-1",
       labels := [("com.docker.compose.service", "web"),
                  ("com.docker.compose.project", "proj")] }
     (by decide) (by decide) (by decide) (by decide) (by decide)
     (Or.inl rfl) (by decide) (by decide) (by decide) (by decide)
     (by decide) (by decide) (by decide) (by decide) (by decide)⟩
